import Mathlib

/-!
# Product service (main.go): HTTP handlers over a relational store

A shallow embedding of the three handlers of `main.go`
(`CreateProductHandler`, `GetProductByIDHandler`, `GetProductsHandler`).

The handlers talk to four libraries that are not part of the repository:
`database/sql` with the `lib/pq` driver, `encoding/json`, `strconv` and
`net/http`.  Their behaviour enters the embedding as follows.

* The store is a state type `σ` with a `query` function: a statement text and
  its argument list go in, rows of column values or an error come out, along
  with the next store state.  `Scan` is a conversion of column values; a
  column converts to a destination of its own kind, and NULL converts to a
  `pq.Array` destination only.
* The JSON decoder, the JSON encoder and `strconv.ParseFloat` are fields of
  `Env`.  `jsonMarshal` is the standard encoder instance.
* `http.ResponseWriter` is a record of header, status and body chunks.
* A `float64` is its IEEE-754 bit pattern; the program never computes with
  floats, it only passes them on.
* `tableQuery` is a store that is a table of rows.  It runs the three
  statements of the program: the insert, the lookup by identifier, and the
  list statement, whose WHERE clause it reads condition by condition
  (`=`, `>=`, `<=` and `ILIKE`, the latter up to the case of ASCII letters).
-/

set_option autoImplicit false
set_option maxRecDepth 100000

namespace ProductService

/-! ## Go values -/

/-- Go `float64`, as its 64-bit IEEE-754 pattern. -/
structure Float64 where
  bits : Nat
  deriving DecidableEq, Repr

namespace Float64

/-- The zero value `0.0`. -/
def zero : Float64 := ⟨0⟩

/-- Biased exponent field (11 bits). -/
def exponent (f : Float64) : Nat := (f.bits / 2 ^ 52) % 2048

/-- Fraction field (52 bits). -/
def fraction (f : Float64) : Nat := f.bits % 2 ^ 52

/-- Sign bit. -/
def negative (f : Float64) : Bool := (f.bits / 2 ^ 63) % 2 == 1

/-- Same as `math.IsNaN`. -/
def isNaN (f : Float64) : Bool := f.exponent == 2047 && f.fraction != 0

/-- Same as `math.IsInf(f, 0)`. -/
def isInf (f : Float64) : Bool := f.exponent == 2047 && f.fraction == 0

/-- A quiet NaN. -/
def nan : Float64 := ⟨0x7FF8000000000000⟩

/-- Position of a float in the order the store uses for `double precision`:
the two zeros coincide, and NaN equals itself and lies above every other
value. -/
def rank (f : Float64) : Int :=
  if f.isNaN then 2 ^ 63
  else if f.negative then -((f.bits % 2 ^ 63 : Nat) : Int)
  else ((f.bits % 2 ^ 63 : Nat) : Int)

/-- The comparison `a <= b` of the store on `double precision`. -/
def le (a b : Float64) : Bool := decide (a.rank ≤ b.rank)

end Float64

/-- Go slice: the nil slice is distinct from an allocated slice, also from an
allocated slice of length zero. -/
inductive Slice (α : Type) where
  | nil
  | mk (xs : List α)
  deriving DecidableEq, Repr

namespace Slice

/-- Elements of the slice, in order. -/
def toList {α : Type} : Slice α → List α
  | nil => []
  | mk xs => xs

/-- Go `append(s, x)`: the result is always allocated. -/
def append {α : Type} (s : Slice α) (x : α) : Slice α :=
  mk (s.toList ++ [x])

end Slice

/-- Go `error` values seen by the handlers: the sentinel `sql.ErrNoRows`, or
any other error with its message. -/
inductive GoError where
  | ErrNoRows
  | other (msg : String)
  deriving DecidableEq, Repr

/-- The text of `err.Error()`, as printed by `%v`. -/
def GoError.msg : GoError → String
  | .ErrNoRows => "sql: no rows in result set"
  | .other m => m

/-! ## The store interface (`database/sql`) -/

/-- A statement argument, as passed in `args ...interface{}`. -/
inductive Arg where
  | int (n : Int)
  | text (s : String)
  | float (f : Float64)
  | textArray (xs : Slice String)
  deriving DecidableEq, Repr

/-- A column value of a result row. -/
inductive Value where
  | null
  | int (n : Int)
  | text (s : String)
  | float (f : Float64)
  | textArray (xs : List String)
  deriving DecidableEq, Repr

/-- Result of running one statement: the rows, or the driver's error. -/
abbrev QueryResult := Except String (List (List Value))

/-- Scan of a column into a Go `int` destination. -/
def scanInt : Value → Except String Int
  | .int n => .ok n
  | .null => .error "sql: Scan error: converting NULL to int is unsupported"
  | _ => .error "sql: Scan error: unsupported conversion to int"

/-- Scan of a column into a Go `string` destination. -/
def scanString : Value → Except String String
  | .text s => .ok s
  | .null => .error "sql: Scan error: converting NULL to string is unsupported"
  | _ => .error "sql: Scan error: unsupported conversion to string"

/-- Scan of a column into a Go `float64` destination. -/
def scanFloat : Value → Except String Float64
  | .float f => .ok f
  | .null => .error "sql: Scan error: converting NULL to float64 is unsupported"
  | _ => .error "sql: Scan error: unsupported conversion to float64"

/-- Scan of a column into `pq.Array(&dst)` with `dst []string`: SQL NULL
gives the nil slice. -/
def scanStringArray : Value → Except String (Slice String)
  | .textArray xs => .ok (.mk xs)
  | .null => .ok .nil
  | _ => .error "pq: unable to scan into StringArray"

/-- The call `pq.Array(xs)` on the argument side: a nil slice is sent as SQL
NULL, an allocated slice as an array. -/
def arrayValue : Slice String → Value
  | .nil => .null
  | .mk xs => .textArray xs

/-! ## Query parameters (`net/url`) -/

/-- Parsed query string, in order of appearance. -/
abbrev Values := List (String × String)

/-- Lookup `url.Values.Get`: the first value of the key, or the empty string. -/
def Values.Get : Values → String → String
  | [], _ => ""
  | (k, v) :: rest, key => if k = key then v else Values.Get rest key

/-- The same query string with every occurrence of a key removed. -/
def Values.Del (q : Values) (key : String) : Values :=
  q.filter (fun kv => kv.1 ≠ key)

/-! ## The list statement of `GetProductsHandler` (main.go 123-144) -/

/-- The statement text of main.go line 128. -/
def listBaseQuery : String :=
  "SELECT id, user_id, product_name, product_description, product_images, product_price FROM products WHERE user_id = $1"

/-- Lines 123-144 of `GetProductsHandler`: the statement text and the argument
list built from the query parameters.  `parseFloat` is `strconv.ParseFloat(s, 64)`
returning the value together with the optional error; the handler drops the
error. -/
def buildListQuery (parseFloat : String → Float64 × Option String) (q : Values) :
    String × List Arg :=
  let userID := q.Get "user_id"
  let priceMin := q.Get "price_min"
  let priceMax := q.Get "price_max"
  let productName := q.Get "product_name"
  let query := listBaseQuery
  let args := [Arg.text userID]
  let (query, args) :=
    if priceMin ≠ "" then
      (query ++ " AND product_price >= $2", args ++ [Arg.float (parseFloat priceMin).1])
    else (query, args)
  let (query, args) :=
    if priceMax ≠ "" then
      (query ++ " AND product_price <= $3", args ++ [Arg.float (parseFloat priceMax).1])
    else (query, args)
  let (query, args) :=
    if productName ≠ "" then
      (query ++ " AND product_name ILIKE $4", args ++ [Arg.text ("%" ++ productName ++ "%")])
    else (query, args)
  (query, args)

/-! ## Placeholders of a statement text -/

/-- Scanner state: outside a placeholder, just after a dollar sign, or inside
the digits of a placeholder. -/
inductive PhState where
  | outside
  | dollar
  | digits (n : Nat)
  deriving DecidableEq, Repr

/-- The placeholder completed when the scanner leaves a state. -/
def PhState.emit : PhState → List Nat
  | .digits n => [n]
  | _ => []

/-- Value of a decimal digit character. -/
def digitVal (c : Char) : Nat := c.toNat - 48

/-- Value of a string of decimal digits. -/
def digitsValue : List Char → Nat → Option Nat
  | [], acc => some acc
  | c :: cs, acc => if c.isDigit then digitsValue cs (10 * acc + digitVal c) else none

/-- Scan of a statement text for positional placeholders. -/
def scanPlaceholders : PhState → List Char → List Nat
  | s, [] => s.emit
  | s, c :: cs =>
    if c = '$' then s.emit ++ scanPlaceholders .dollar cs
    else if c.isDigit then
      match s with
      | .outside => scanPlaceholders .outside cs
      | .dollar => scanPlaceholders (.digits (digitVal c)) cs
      | .digits n => scanPlaceholders (.digits (10 * n + digitVal c)) cs
    else s.emit ++ scanPlaceholders .outside cs

/-- The numbers of the positional placeholders of a statement text, in order
of appearance. -/
def placeholders (sql : String) : List Nat := scanPlaceholders .outside sql.data

/-! ## JSON encoding (`encoding/json`) -/

/-- Values stored under the keys of a `map[string]interface{}` response. -/
inductive GoVal where
  | int (n : Int)
  | str (s : String)
  | float (f : Float64)
  | strs (xs : Slice String)
  deriving DecidableEq, Repr

/-- Go `map[string]interface{}`, listed in the order of the map literal. -/
abbrev GoMap := List (String × GoVal)

/-- The values the handlers hand to `Encode`: one map, or a slice of maps. -/
inductive Encodable where
  | map (m : GoMap)
  | maps (ms : Slice GoMap)
  deriving DecidableEq, Repr

/-- A member value of a JSON object. -/
inductive JsonVal where
  | null
  | int (n : Int)
  | num (f : Float64)
  | str (s : String)
  | strs (xs : List String)
  deriving DecidableEq, Repr

/-- A JSON object: members in the order they are written. -/
abbrev JsonObj := List (String × JsonVal)

/-- A JSON document as written to the response. -/
inductive JsonDoc where
  | null
  | obj (o : JsonObj)
  | arr (os : List JsonObj)
  deriving DecidableEq, Repr

/-- Lexicographic order on code points. -/
def ltChars : List Char → List Char → Bool
  | _, [] => false
  | [], _ :: _ => true
  | a :: as, b :: bs =>
    if a.toNat < b.toNat then true
    else if b.toNat < a.toNat then false
    else ltChars as bs

/-- Order of map keys in the encoder output. -/
def keyLt (a b : String) : Bool := ltChars a.data b.data

/-- Insertion of one member into a key-sorted member list. -/
def insertKey {α : Type} (kv : String × α) : List (String × α) → List (String × α)
  | [] => [kv]
  | x :: xs => if keyLt kv.1 x.1 then kv :: x :: xs else x :: insertKey kv xs

/-- Members sorted by key: `encoding/json` writes map keys in sorted order. -/
def sortKeys {α : Type} : List (String × α) → List (String × α)
  | [] => []
  | x :: xs => insertKey x (sortKeys xs)

/-- The text `encoding/json` puts in its `UnsupportedValueError` for a float. -/
def unsupportedFloat (f : Float64) : String :=
  "json: unsupported value: " ++
    (if f.isNaN then "NaN" else if f.negative then "-Inf" else "+Inf")

/-- Encoding of one value: NaN and the infinities are refused, a nil slice
encodes as `null`. -/
def marshalVal : GoVal → Except String JsonVal
  | .int n => .ok (.int n)
  | .str s => .ok (.str s)
  | .float f => if f.isNaN || f.isInf then .error (unsupportedFloat f) else .ok (.num f)
  | .strs .nil => .ok .null
  | .strs (.mk xs) => .ok (.strs xs)

/-- Encoding of the members of a map, in the given order. -/
def marshalMembers : List (String × GoVal) → Except String JsonObj
  | [] => .ok []
  | (k, v) :: rest =>
    match marshalVal v with
    | .error e => .error e
    | .ok j =>
      match marshalMembers rest with
      | .error e => .error e
      | .ok js => .ok ((k, j) :: js)

/-- Encoding of a map: members in key order. -/
def marshalMap (m : GoMap) : Except String JsonObj := marshalMembers (sortKeys m)

/-- Encoding of the elements of a slice of maps. -/
def marshalMaps : List GoMap → Except String (List JsonObj)
  | [] => .ok []
  | m :: rest =>
    match marshalMap m with
    | .error e => .error e
    | .ok o =>
      match marshalMaps rest with
      | .error e => .error e
      | .ok os => .ok (o :: os)

/-- The encoder of `encoding/json` on the values the handlers build.  A nil
slice encodes as the JSON value `null`, an allocated slice as an array. -/
def jsonMarshal : Encodable → Except String JsonDoc
  | .map m =>
    match marshalMap m with
    | .error e => .error e
    | .ok o => .ok (.obj o)
  | .maps .nil => .ok .null
  | .maps (.mk ms) =>
    match marshalMaps ms with
    | .error e => .error e
    | .ok os => .ok (.arr os)

/-! ## The response writer (`net/http`) -/

/-- One write to the response body: a line of plain text, or a JSON document
followed by a newline. -/
inductive Chunk where
  | text (s : String)
  | json (d : JsonDoc)
  deriving DecidableEq, Repr

/-- State of an `http.ResponseWriter`: the header map, the status code once
written, and the body written so far. -/
structure ResponseWriter where
  header : List (String × String)
  status : Option Nat
  body : List Chunk
  deriving DecidableEq, Repr

namespace ResponseWriter

/-- The writer a handler starts with. -/
def new : ResponseWriter := ⟨[], none, []⟩

/-- Call `w.Header().Del(key)`. -/
def delHeader (w : ResponseWriter) (key : String) : ResponseWriter :=
  { w with header := w.header.filter (fun kv => kv.1 ≠ key) }

/-- Call `w.Header().Set(key, value)`. -/
def setHeader (w : ResponseWriter) (key value : String) : ResponseWriter :=
  { w with header := w.header.filter (fun kv => kv.1 ≠ key) ++ [(key, value)] }

/-- Call `w.WriteHeader(code)`: only the first call takes effect. -/
def WriteHeader (w : ResponseWriter) (code : Nat) : ResponseWriter :=
  match w.status with
  | none => { w with status := some code }
  | some _ => w

/-- Call `w.Write(data)`: writes status 200 first when no status was written. -/
def Write (w : ResponseWriter) (data : Chunk) : ResponseWriter :=
  let w := w.WriteHeader 200
  { w with body := w.body ++ [data] }

end ResponseWriter

/-- The function `http.Error(w, error, code)`: a plain-text reply. -/
def httpError (w : ResponseWriter) (error : String) (code : Nat) : ResponseWriter :=
  let w := w.delHeader "Content-Length"
  let w := w.setHeader "Content-Type" "text/plain; charset=utf-8"
  let w := w.setHeader "X-Content-Type-Options" "nosniff"
  let w := w.WriteHeader code
  w.Write (.text (error ++ "\n"))

/-- The call `json.NewEncoder(w).Encode(v)`: the value is encoded in full
before anything is written, so a failed encoding writes nothing. -/
def Encode (marshal : Encodable → Except String JsonDoc) (w : ResponseWriter)
    (v : Encodable) : ResponseWriter × Option String :=
  match marshal v with
  | .error e => (w, some e)
  | .ok doc => (w.Write (.json doc), none)

/-! ## Environment of a handler run -/

/-- The struct `Product` declared inside `CreateProductHandler`. -/
structure Product where
  UserID : Int
  ProductName : String
  ProductDescription : String
  ProductImages : Slice String
  ProductPrice : Float64
  deriving DecidableEq, Repr

/-- What a handler run depends on besides the request: the store behind the
global `db`, the JSON decoder on request bodies, the JSON encoder, and
`strconv.ParseFloat(s, 64)` (value and optional error). -/
structure Env (σ : Type) where
  query : σ → String → List Arg → QueryResult × σ
  decode : String → Except String Product
  marshal : Encodable → Except String JsonDoc
  parseFloat : String → Float64 × Option String

/-- One statement sent to the store. -/
abbrev Stmt := String × List Arg

/-- Outcome of a handler run: the response, the store afterwards, the
statements sent to the store, and the lines logged. -/
structure Result (σ : Type) where
  w : ResponseWriter
  store : σ
  issued : List Stmt
  log : List String

/-- The call `db.QueryRow(query, args...).Scan(dest...)`: a driver error is
returned by `Scan`, an empty result is `sql.ErrNoRows`, otherwise the first
row is scanned. -/
def QueryRowScan {σ α : Type} (query : σ → String → List Arg → QueryResult × σ)
    (st : σ) (sql : String) (args : List Arg) (scan : List Value → Except String α) :
    Except GoError α × σ :=
  match query st sql args with
  | (.error e, st') => (.error (.other e), st')
  | (.ok [], st') => (.error .ErrNoRows, st')
  | (.ok (row :: _), st') =>
    match scan row with
    | .error e => (.error (.other e), st')
    | .ok v => (.ok v, st')

/-- Error of `Scan` when the number of columns differs from the number of
destinations. -/
def scanArity : String := "sql: wrong number of destination arguments in Scan"

/-! ## CreateProductHandler (main.go 39-76) -/

/-- The statement text of main.go lines 54-57. -/
def insertSQL : String :=
  "\n\t\tINSERT INTO products (user_id, product_name, product_description, product_images, product_price)\n\t\tVALUES ($1, $2, $3, $4, $5) RETURNING id\n\t"

/-- The argument list of the insert, main.go line 60. -/
def insertArgs (product : Product) : List Arg :=
  [.int product.UserID, .text product.ProductName, .text product.ProductDescription,
   .textArray product.ProductImages, .float product.ProductPrice]

/-- The call `Scan(&productID)` of main.go line 60. -/
def scanProductID : List Value → Except String Int
  | [v] => scanInt v
  | _ => .error scanArity

/-- The response map of main.go lines 67-70. -/
def createdResponse (productID : Int) : GoMap :=
  [("message", .str "Product created successfully"), ("product_id", .int productID)]

/-- Handler of `POST /products`. -/
def CreateProductHandler {σ : Type} (env : Env σ) (st : σ) (body : String) : Result σ :=
  let w := ResponseWriter.new
  match env.decode body with
  | .error _ => ⟨httpError w "Invalid request payload" 400, st, [], []⟩
  | .ok product =>
    let query := insertSQL
    let args := insertArgs product
    match QueryRowScan env.query st query args scanProductID with
    | (.error err, st') =>
      ⟨httpError w "Failed to create product" 500, st', [(query, args)],
        ["Error inserting product: " ++ err.msg]⟩
    | (.ok productID, st') =>
      let response := createdResponse productID
      let w := w.setHeader "Content-Type" "application/json"
      match Encode env.marshal w (.map response) with
      | (w, some _) => ⟨httpError w "Failed to write response" 500, st', [(query, args)], []⟩
      | (w, none) => ⟨w, st', [(query, args)], []⟩

/-! ## GetProductByIDHandler (main.go 78-120) -/

/-- The statement text of main.go lines 82-85. -/
def selectByIDSQL : String :=
  "\n\t\tSELECT user_id, product_name, product_description, product_images, compressed_product_images, product_price\n\t\tFROM products WHERE id = $1\n\t"

/-- The destination variables of main.go lines 87-94. -/
structure Scanned where
  userID : Int
  productName : String
  productDescription : String
  productImages : Slice String
  compressedImages : Slice String
  productPrice : Float64
  deriving DecidableEq, Repr

/-- The call `row.Scan(...)` of main.go line 97: six columns, in the order of
the SELECT list. -/
def scanProduct : List Value → Except String Scanned
  | [c1, c2, c3, c4, c5, c6] =>
    match scanInt c1 with
    | .error e => .error e
    | .ok userID =>
    match scanString c2 with
    | .error e => .error e
    | .ok productName =>
    match scanString c3 with
    | .error e => .error e
    | .ok productDescription =>
    match scanStringArray c4 with
    | .error e => .error e
    | .ok productImages =>
    match scanStringArray c5 with
    | .error e => .error e
    | .ok compressedImages =>
    match scanFloat c6 with
    | .error e => .error e
    | .ok productPrice =>
      .ok ⟨userID, productName, productDescription, productImages, compressedImages,
        productPrice⟩
  | _ => .error scanArity

/-- The response map of main.go lines 107-114. -/
def productResponse (r : Scanned) : GoMap :=
  [("user_id", .int r.userID),
   ("product_name", .str r.productName),
   ("product_description", .str r.productDescription),
   ("product_images", .strs r.productImages),
   ("compressed_images", .strs r.compressedImages),
   ("product_price", .float r.productPrice)]

/-- The store lookup of main.go lines 96-97, for the path variable `id`. -/
def lookupProduct {σ : Type} (env : Env σ) (st : σ) (productID : String) :
    Except GoError Scanned × σ :=
  QueryRowScan env.query st selectByIDSQL [.text productID] scanProduct

/-- Handler of `GET /products/{id}`; `productID` is `mux.Vars(r)["id"]`. -/
def GetProductByIDHandler {σ : Type} (env : Env σ) (st : σ) (productID : String) :
    Result σ :=
  let w := ResponseWriter.new
  let query := selectByIDSQL
  match lookupProduct env st productID with
  | (.error .ErrNoRows, st') =>
    ⟨httpError w "Product not found" 404, st', [(query, [.text productID])], []⟩
  | (.error (.other e), st') =>
    ⟨httpError w "Failed to retrieve product" 500, st', [(query, [.text productID])],
      ["Error retrieving product: " ++ (GoError.other e).msg]⟩
  | (.ok r, st') =>
    let response := productResponse r
    let w := w.setHeader "Content-Type" "application/json"
    match Encode env.marshal w (.map response) with
    | (w, some _) =>
      ⟨httpError w "Failed to write response" 500, st', [(query, [.text productID])], []⟩
    | (w, none) => ⟨w, st', [(query, [.text productID])], []⟩

/-! ## GetProductsHandler (main.go 122-183) -/

/-- The call `rows.Scan(...)` of main.go line 164 and the map of lines
169-176. -/
def scanListRow : List Value → Except String GoMap
  | [c1, c2, c3, c4, c5, c6] =>
    match scanInt c1 with
    | .error e => .error e
    | .ok id =>
    match scanInt c2 with
    | .error e => .error e
    | .ok userID =>
    match scanString c3 with
    | .error e => .error e
    | .ok productName =>
    match scanString c4 with
    | .error e => .error e
    | .ok productDescription =>
    match scanStringArray c5 with
    | .error e => .error e
    | .ok productImages =>
    match scanFloat c6 with
    | .error e => .error e
    | .ok productPrice =>
      .ok [("id", .int id),
           ("user_id", .int userID),
           ("product_name", .str productName),
           ("product_description", .str productDescription),
           ("product_images", .strs productImages),
           ("product_price", .float productPrice)]
  | _ => .error scanArity

/-- The loop `for rows.Next()` of main.go lines 155-177: each row is scanned
and appended to `products`; the first scan error ends the loop. -/
def scanRows : List (List Value) → Slice GoMap → Except String (Slice GoMap)
  | [], products => .ok products
  | row :: rest, products =>
    match scanListRow row with
    | .error e => .error e
    | .ok m => scanRows rest (products.append m)

/-- Handler of `GET /products`; `q` is `r.URL.Query()`. -/
def GetProductsHandler {σ : Type} (env : Env σ) (st : σ) (q : Values) : Result σ :=
  let w := ResponseWriter.new
  let (query, args) := buildListQuery env.parseFloat q
  match env.query st query args with
  | (.error err, st') =>
    ⟨httpError w "Failed to retrieve products" 500, st', [(query, args)],
      ["Error retrieving products: " ++ err]⟩
  | (.ok rows, st') =>
    -- var products []map[string]interface{}: the nil slice
    let products : Slice GoMap := .nil
    match scanRows rows products with
    | .error err =>
      ⟨httpError w "Failed to parse product data" 500, st', [(query, args)],
        ["Error scanning product row: " ++ err]⟩
    | .ok products =>
      let w := w.setHeader "Content-Type" "application/json"
      match Encode env.marshal w (.maps products) with
      | (w, some _) => ⟨httpError w "Failed to write response" 500, st', [(query, args)], []⟩
      | (w, none) => ⟨w, st', [(query, args)], []⟩

/-! ## A store that is a table of rows -/

/-- One row of the table `products`. -/
structure Row where
  id : Int
  user_id : Int
  product_name : String
  product_description : String
  product_images : Value
  compressed_product_images : Value
  product_price : Float64
  deriving DecidableEq, Repr

/-- The table `products` with the sequence that numbers new rows. -/
structure Table where
  rows : List Row
  nextID : Int
  deriving DecidableEq, Repr

/-- What the schema fixes outside this program: the constraints a new row has
to meet besides the uniqueness of `id`, and the coercion of a text parameter
to an integer column. -/
structure Schema where
  accepts : Row → Bool
  coerce : String → Option Int

/-- Columns of a row in the order of the SELECT list of `selectByIDSQL`. -/
def Row.selected (r : Row) : List Value :=
  [.int r.user_id, .text r.product_name, .text r.product_description, r.product_images,
   r.compressed_product_images, .float r.product_price]

/-- Columns of a row in the order of the SELECT list of `listBaseQuery`. -/
def Row.listed (r : Row) : List Value :=
  [.int r.id, .int r.user_id, .text r.product_name, .text r.product_description,
   r.product_images, .float r.product_price]

/-- The row an insert builds from the parameters `$1..$5`, bound to the
columns named in `insertSQL` in that order; `compressed_product_images` is not
named and stays NULL. -/
def insertedRow (id : Int) : List Arg → Option Row
  | [.int uid, .text name, .text desc, .textArray imgs, .float price] =>
    some ⟨id, uid, name, desc, arrayValue imgs, .null, price⟩
  | _ => none

/-! ### Pattern matching of the store (`LIKE`, `ILIKE`) -/

/-- Equality of characters up to the case of ASCII letters. -/
def eqFold (a b : Char) : Bool := a.toLower == b.toLower

/-- Match of a `LIKE` pattern against a text: `%` stands for any sequence of
characters, `_` for any one character, and a backslash makes the next pattern
character stand for itself; a pattern that ends in a lone backslash matches
nothing.  The flag says that the previous pattern character was an unescaped
backslash. -/
def likeFrom (eqv : Char → Char → Bool) : Bool → List Char → List Char → Bool
  | escaped, [], s => !escaped && s.isEmpty
  | true, p :: ps, s =>
    match s with
    | [] => false
    | c :: cs => eqv p c && likeFrom eqv false ps cs
  | false, p :: ps, s =>
    if p = '%' then s.tails.any (fun t => likeFrom eqv false ps t)
    else if p = '\\' then likeFrom eqv true ps s
    else
      match s with
      | [] => false
      | c :: cs => (p = '_' || eqv p c) && likeFrom eqv false ps cs

/-- The operator `s ILIKE pattern`: `LIKE` up to the case of letters. -/
def ilike (pattern s : String) : Bool := likeFrom eqFold false pattern.data s.data

/-- The text starts with the name, up to the case of letters. -/
def startsWithFold : List Char → List Char → Bool
  | [], _ => true
  | _ :: _, [] => false
  | a :: as, b :: bs => eqFold a b && startsWithFold as bs

/-- The name occurs in the text as a substring, up to the case of letters. -/
def containsFold (n s : String) : Bool :=
  s.data.tails.any (fun t => startsWithFold n.data t)

/-- A character that has no special meaning in a `LIKE` pattern. -/
def plainChar (c : Char) : Bool := c != '%' && c != '_' && c != '\\'

/-! ### The WHERE clause of the list statement -/

/-- One condition `column op $n` of a WHERE clause. -/
structure Cond where
  column : String
  op : String
  param : Nat
  deriving DecidableEq, Repr

/-- The list statement up to and including the keyword WHERE. -/
def listSelectHead : String :=
  "SELECT id, user_id, product_name, product_description, product_images, product_price FROM products WHERE "

/-- The rest of a text after the given leading characters. -/
def dropLeading : List Char → List Char → Option (List Char)
  | [], s => some s
  | _ :: _, [] => none
  | a :: as, b :: bs => if a = b then dropLeading as bs else none

/-- The words of a text, separated by single spaces. -/
def splitSpaces : List Char → List (List Char)
  | [] => [[]]
  | c :: cs =>
    if c = ' ' then [] :: splitSpaces cs
    else
      match splitSpaces cs with
      | [] => [[c]]
      | w :: ws => (c :: w) :: ws

/-- The number of a placeholder `$n`. -/
def parseParam : List Char → Option Nat
  | c :: d :: ds => if c = '$' then digitsValue (d :: ds) 0 else none
  | _ => none

/-- Conditions `column op $n` joined by the word AND. -/
def parseConds : List (List Char) → Option (List Cond)
  | c :: o :: p :: rest =>
    match parseParam p with
    | none => none
    | some n =>
      match rest with
      | [] => some [⟨String.mk c, String.mk o, n⟩]
      | a :: more =>
        if a = ['A', 'N', 'D'] then
          match parseConds more with
          | none => none
          | some cs => some (⟨String.mk c, String.mk o, n⟩ :: cs)
        else none
  | _ => none

/-- The conditions of a list statement: the text has to start with
`listSelectHead`. -/
def parseListStatement (sql : String) : Option (List Cond) :=
  match dropLeading listSelectHead.data sql.data with
  | none => none
  | some rest => parseConds (splitSpaces rest)

/-- The test a condition makes on a row once its placeholder is bound: `$n`
is the n-th argument; a placeholder without an argument, or with an argument
of the wrong kind, is an error of the statement. -/
def bindCond (sch : Schema) (args : List Arg) (c : Cond) : Option (Row → Bool) :=
  if c.param = 0 then none
  else
    match args[c.param - 1]? with
    | none => none
    | some a =>
      if c.column = "user_id" ∧ c.op = "=" then
        match a with
        | .text s =>
          match sch.coerce s with
          | none => none
          | some u => some (fun r => decide (r.user_id = u))
        | .int u => some (fun r => decide (r.user_id = u))
        | _ => none
      else if c.column = "product_price" ∧ c.op = ">=" then
        match a with
        | .float f => some (fun r => Float64.le f r.product_price)
        | _ => none
      else if c.column = "product_price" ∧ c.op = "<=" then
        match a with
        | .float f => some (fun r => Float64.le r.product_price f)
        | _ => none
      else if c.column = "product_name" ∧ c.op = "ILIKE" then
        match a with
        | .text p => some (fun r => ilike p r.product_name)
        | _ => none
      else none

/-- The tests of all conditions, in order. -/
def bindConds (sch : Schema) (args : List Arg) : List Cond → Option (List (Row → Bool))
  | [] => some []
  | c :: cs =>
    match bindCond sch args c with
    | none => none
    | some f =>
      match bindConds sch args cs with
      | none => none
      | some fs => some (f :: fs)

/-- The rows a list statement selects: those that pass every condition. -/
def listPredicate (sch : Schema) (sql : String) (args : List Arg) : Option (Row → Bool) :=
  match parseListStatement sql with
  | none => none
  | some conds =>
    match bindConds sch args conds with
    | none => none
    | some fs => some (fun r => fs.all (fun f => f r))

/-- The table store: it runs the three statements of this program.  An insert
takes the next number of the sequence as `id`; `id` is unique, so the insert
is refused when a stored row has that number already. -/
def tableQuery (sch : Schema) (t : Table) (sql : String) (args : List Arg) :
    QueryResult × Table :=
  if sql = insertSQL then
    match insertedRow t.nextID args with
    | none => (.error "pq: wrong parameters for the insert", t)
    | some row =>
      if t.rows.any (fun r => decide (r.id = row.id)) then
        (.error "pq: duplicate key value violates unique constraint", ⟨t.rows, t.nextID + 1⟩)
      else if sch.accepts row then
        (.ok [[.int row.id]], ⟨t.rows ++ [row], t.nextID + 1⟩)
      else (.error "pq: new row violates a constraint", ⟨t.rows, t.nextID + 1⟩)
  else if sql = selectByIDSQL then
    match args with
    | [.text s] =>
      match sch.coerce s with
      | none => (.error "pq: invalid input syntax for type integer", t)
      | some i => (.ok ((t.rows.filter (fun r => r.id = i)).map Row.selected), t)
    | _ => (.error "pq: wrong parameters for the lookup", t)
  else
    match listPredicate sch sql args with
    | none => (.error "pq: statement refused by the table store", t)
    | some sel => (.ok ((t.rows.filter sel).map Row.listed), t)

/-! ## Reading of the list statement used in the statements below -/

/-- The optional clauses of the list statement, as the text says they are
appended: one per non-empty optional parameter, in source order. -/
def appendedClauses (q : Values) : List String :=
  (if q.Get "price_min" ≠ "" then ["product_price >= $2"] else []) ++
  (if q.Get "price_max" ≠ "" then ["product_price <= $3"] else []) ++
  (if q.Get "product_name" ≠ "" then ["product_name ILIKE $4"] else [])

/-- Each clause of the list statement with the placeholder number written in
it and the argument appended together with it. -/
def clauseBindings (parseFloat : String → Float64 × Option String) (q : Values) :
    List (Nat × Arg) :=
  [(1, Arg.text (q.Get "user_id"))] ++
  (if q.Get "price_min" ≠ "" then [(2, Arg.float (parseFloat (q.Get "price_min")).1)]
    else []) ++
  (if q.Get "price_max" ≠ "" then [(3, Arg.float (parseFloat (q.Get "price_max")).1)]
    else []) ++
  (if q.Get "product_name" ≠ "" then [(4, Arg.text ("%" ++ q.Get "product_name" ++ "%"))]
    else [])

/-- The non-empty optional parameters form a prefix of the order
`price_min`, `price_max`, `product_name`. -/
def optionalsFormInitialSegment (q : Values) : Prop :=
  (q.Get "price_max" ≠ "" → q.Get "price_min" ≠ "") ∧
  (q.Get "product_name" ≠ "" → q.Get "price_max" ≠ "")

instance (q : Values) : Decidable (optionalsFormInitialSegment q) := by
  unfold optionalsFormInitialSegment; infer_instance

/-- Number of non-empty optional parameters. -/
def optionalCount (q : Values) : Nat :=
  (if q.Get "price_min" ≠ "" then 1 else 0) +
  (if q.Get "price_max" ≠ "" then 1 else 0) +
  (if q.Get "product_name" ≠ "" then 1 else 0)

/-! ## Runs that differ only in the text of error values -/

/-- Two library results agree up to the text of the error: both succeed with
the same value, or both fail. -/
def sameUpToErrorText {α : Type} : Except String α → Except String α → Prop
  | .ok a, .ok b => a = b
  | .error _, .error _ => True
  | _, _ => False

/-- Two lookup outcomes agree up to the text of the error: the same value, the
sentinel `sql.ErrNoRows` on both sides, or some other error on both sides. -/
def sameOutcome {α : Type} : Except GoError α → Except GoError α → Prop
  | .ok a, .ok b => a = b
  | .error .ErrNoRows, .error .ErrNoRows => True
  | .error (.other _), .error (.other _) => True
  | _, _ => False

/-- Two environments that differ only in the text of the errors their
libraries return: the decoder, the store and the encoder succeed on the same
inputs with the same results and leave the store in the same state, and
`ParseFloat` returns the same values and fails on the same strings. -/
def DifferOnlyInErrorText {σ : Type} (env1 env2 : Env σ) : Prop :=
  (∀ body, sameUpToErrorText (env1.decode body) (env2.decode body))
  ∧ (∀ s, (env1.parseFloat s).1 = (env2.parseFloat s).1
      ∧ (env1.parseFloat s).2.isSome = (env2.parseFloat s).2.isSome)
  ∧ (∀ st sql args, sameUpToErrorText (env1.query st sql args).1 (env2.query st sql args).1
      ∧ (env1.query st sql args).2 = (env2.query st sql args).2)
  ∧ (∀ v, sameUpToErrorText (env1.marshal v) (env2.marshal v))

/-- The fixed messages of `CreateProductHandler`. -/
def createMessages : List String :=
  ["Invalid request payload", "Failed to create product", "Failed to write response"]

/-- The fixed messages of `GetProductByIDHandler`. -/
def getByIDMessages : List String :=
  ["Product not found", "Failed to retrieve product", "Failed to write response"]

/-- The fixed messages of `GetProductsHandler`. -/
def listMessages : List String :=
  ["Failed to retrieve products", "Failed to parse product data", "Failed to write response"]

/-- The reply is either a single JSON document with status 200, or one of the
given fixed messages on a line of its own with an error status. -/
def JsonOrFixedMessage (msgs : List String) (w : ResponseWriter) : Prop :=
  (w.status = some 200 ∧ ∃ doc, w.body = [.json doc])
  ∨ (w.status ≠ some 200 ∧ ∃ m ∈ msgs, w.body = [.text (m ++ "\n")])

/-! ## Concrete runs -/

/-- The float64 value 10. -/
def f10 : Float64 := ⟨0x4024000000000000⟩

/-- The float64 value 50. -/
def f50 : Float64 := ⟨0x4049000000000000⟩

/-- A fragment of `strconv.ParseFloat(s, 64)` for concrete runs: exact on the
strings "10", "50" and "abc"; every other string is reported as a syntax
error with value 0, as "abc" is. -/
def sampleParseFloat (s : String) : Float64 × Option String :=
  if s = "10" then (f10, none)
  else if s = "50" then (f50, none)
  else (Float64.zero, some "strconv.ParseFloat: invalid syntax")

/-- A well-formed create payload. -/
def samplePayload : String :=
  "\x7b\"user_id\":42,\"product_name\":\"Running Shoes\",\"product_description\":\"light\",\"product_images\":[\"a.png\",\"b.png\"],\"product_price\":50\x7d"

/-- The product the payload `samplePayload` decodes to. -/
def sampleProduct : Product :=
  ⟨42, "Running Shoes", "light", .mk ["a.png", "b.png"], f50⟩

/-- A fragment of the JSON decoder on request bodies for concrete runs: exact
on one well-formed payload; every other body is reported as malformed, as the
body "not json" is. -/
def sampleDecode (body : String) : Except String Product :=
  if body = samplePayload then .ok sampleProduct
  else .error "invalid character in request body"

/-- Coercion of a text parameter to an integer for concrete runs: non-empty
strings of decimal digits. -/
def sampleCoerce (s : String) : Option Int :=
  if s.data = [] then none else (digitsValue s.data 0).map Int.ofNat

/-- A schema without constraints. -/
def sampleSchema : Schema := ⟨fun _ => true, sampleCoerce⟩

/-- The handlers over the table store with the standard encoder. -/
def sampleEnv : Env Table := ⟨tableQuery sampleSchema, sampleDecode, jsonMarshal, sampleParseFloat⟩

/-- A table holding one row whose price is NaN. -/
def nanTable : Table :=
  ⟨[⟨1, 42, "Running Shoes", "light", .textArray ["a.png"], .null, Float64.nan⟩], 2⟩

/-- The products of user 42 and one of user 7. -/
def shoeTable : Table :=
  ⟨[⟨1, 42, "Running Shoes", "light", .textArray ["a.png"], .null, f50⟩,
    ⟨2, 42, "Snowshoe", "wide", .null, .null, f10⟩,
    ⟨3, 42, "Gas stove", "hot", .null, .null, f10⟩,
    ⟨4, 7, "Shoe rack", "oak", .null, .null, f10⟩], 5⟩

/-- A table holding one row named "Gas stove". -/
def gasTable : Table :=
  ⟨[⟨1, 42, "Gas stove", "hot", .null, .null, f10⟩], 2⟩

/-- The statement text with all three optional clauses. -/
def allFiltersQuery : String :=
  listBaseQuery
    ++ " AND product_price >= $2 AND product_price <= $3 AND product_name ILIKE $4"

/-- A store in which no row matches any statement. -/
def noRowsQuery (st : Unit) (_sql : String) (_args : List Arg) : QueryResult × Unit :=
  (.ok [], st)

/-- The handlers over the store without matching rows, with the standard
encoder. -/
def noRowsEnv : Env Unit := ⟨noRowsQuery, sampleDecode, jsonMarshal, sampleParseFloat⟩

/-- A store that refuses every statement with the given text. -/
def failingQuery (text : String) (st : Unit) (_sql : String) (_args : List Arg) :
    QueryResult × Unit :=
  (.error text, st)

/-- The handlers over a store that refuses every statement. -/
def failingEnv (text : String) : Env Unit :=
  ⟨failingQuery text, sampleDecode, jsonMarshal, sampleParseFloat⟩

end ProductService

/-! # Theorems -/

namespace ProductService

/-! ## Query parameters -/

/-- Lookup after removal of a key. -/
theorem Values.Get_Del (q : Values) (key k : String) :
    (Values.Del q key).Get k = if k = key then "" else q.Get k := by
  induction q with
  | nil => simp [Values.Del, Values.Get]
  | cons kv rest ih =>
    obtain ⟨a, b⟩ := kv
    unfold Values.Del at ih ⊢
    by_cases ha : a = key
    · subst ha
      by_cases hk : k = a
      · subst hk
        simpa [List.filter, Values.Get] using ih
      · have hk2 : ¬ a = k := fun h => hk h.symm
        simpa [List.filter, Values.Get, hk, hk2] using ih
    · by_cases hk : k = key
      · subst hk
        simpa [List.filter, Values.Get, ha] using ih
      · by_cases hak : a = k
        · simp [List.filter, Values.Get, ha, hak, hk]
        · simpa [List.filter, Values.Get, ha, hak, hk] using ih

/-! ## The list statement -/

/-- The statement text and the argument list, clause by clause. -/
theorem buildListQuery_eq (pf : String → Float64 × Option String) (q : Values) :
    buildListQuery pf q =
      (listBaseQuery
        ++ (if q.Get "price_min" ≠ "" then " AND product_price >= $2" else "")
        ++ (if q.Get "price_max" ≠ "" then " AND product_price <= $3" else "")
        ++ (if q.Get "product_name" ≠ "" then " AND product_name ILIKE $4" else ""),
       [Arg.text (q.Get "user_id")]
        ++ (if q.Get "price_min" ≠ "" then [Arg.float (pf (q.Get "price_min")).1] else [])
        ++ (if q.Get "price_max" ≠ "" then [Arg.float (pf (q.Get "price_max")).1] else [])
        ++ (if q.Get "product_name" ≠ "" then [Arg.text ("%" ++ q.Get "product_name" ++ "%")]
            else [])) := by
  unfold buildListQuery
  by_cases h1 : q.Get "price_min" = "" <;> by_cases h2 : q.Get "price_max" = "" <;>
    by_cases h3 : q.Get "product_name" = "" <;> simp [h1, h2, h3]

/-- Placeholders of the eight possible statement texts. -/
theorem placeholders_listText (b2 b3 b4 : Bool) :
    placeholders (listBaseQuery
        ++ (if b2 then " AND product_price >= $2" else "")
        ++ (if b3 then " AND product_price <= $3" else "")
        ++ (if b4 then " AND product_name ILIKE $4" else ""))
      = [1] ++ (if b2 then [2] else []) ++ (if b3 then [3] else [])
          ++ (if b4 then [4] else []) := by
  cases b2 <;> cases b3 <;> cases b4 <;> decide

/-- Placeholders of the statement text built for a request. -/
theorem placeholders_buildListQuery (pf : String → Float64 × Option String) (q : Values) :
    placeholders (buildListQuery pf q).1
      = [1] ++ (if q.Get "price_min" ≠ "" then [2] else [])
          ++ (if q.Get "price_max" ≠ "" then [3] else [])
          ++ (if q.Get "product_name" ≠ "" then [4] else []) := by
  have h := placeholders_listText (decide (q.Get "price_min" ≠ ""))
    (decide (q.Get "price_max" ≠ "")) (decide (q.Get "product_name" ≠ ""))
  rw [buildListQuery_eq]
  simpa using h

/-- The handler sends exactly the statement built from the query parameters. -/
theorem GetProductsHandler_issued {σ : Type} (env : Env σ) (st : σ) (q : Values) :
    (GetProductsHandler env st q).issued = [buildListQuery env.parseFloat q] := by
  unfold GetProductsHandler
  rcases hq : env.query st (buildListQuery env.parseFloat q).1
      (buildListQuery env.parseFloat q).2 with ⟨res, st'⟩
  cases res with
  | error e => simp [hq]
  | ok rows =>
    simp only [hq, Encode]
    cases hs : scanRows rows .nil with
    | error e => simp
    | ok products =>
      cases hm : env.marshal (.maps products) <;> simp [hm]

/-- C6: for every list request the handler sends one statement; its text is
the base SELECT, which ends in `WHERE user_id = $1`, followed by the appended
clauses each introduced by ` AND `, and its first argument is the value of
`user_id`. -/
theorem list_query_always_filters_by_user {σ : Type} (env : Env σ) (st : σ) (q : Values) :
    (GetProductsHandler env st q).issued = [buildListQuery env.parseFloat q]
      ∧ listBaseQuery =
        "SELECT id, user_id, product_name, product_description, product_images, product_price FROM products"
          ++ " WHERE user_id = $1"
      ∧ (buildListQuery env.parseFloat q).1
          = listBaseQuery ++ String.join ((appendedClauses q).map (fun c => " AND " ++ c))
      ∧ (buildListQuery env.parseFloat q).2.head? = some (Arg.text (q.Get "user_id"))
      ∧ (buildListQuery env.parseFloat q).2.length = 1 + (appendedClauses q).length := by
  refine ⟨GetProductsHandler_issued env st q, by decide, ?_, ?_, ?_⟩
  · rw [buildListQuery_eq]
    unfold appendedClauses
    by_cases h1 : q.Get "price_min" = "" <;> by_cases h2 : q.Get "price_max" = "" <;>
      by_cases h3 : q.Get "product_name" = "" <;>
      simp [h1, h2, h3, String.join, String.append_assoc]
  · rw [buildListQuery_eq]
    simp
  · rw [buildListQuery_eq]
    unfold appendedClauses
    by_cases h1 : q.Get "price_min" = "" <;> by_cases h2 : q.Get "price_max" = "" <;>
      by_cases h3 : q.Get "product_name" = "" <;> simp [h1, h2, h3]

/-! ### The name filter is a pattern -/

/-- A pattern starting with `%` matches when the rest matches some tail. -/
theorem likeFrom_percent (eqv : Char → Char → Bool) (ps s : List Char) :
    likeFrom eqv false ('%' :: ps) s = s.tails.any (fun t => likeFrom eqv false ps t) := rfl

/-- A plain pattern character does not match the empty text. -/
theorem likeFrom_plain_nil (eqv : Char → Char → Bool) (p : Char) (ps : List Char)
    (h : plainChar p = true) : likeFrom eqv false (p :: ps) [] = false := by
  simp only [plainChar, Bool.and_eq_true, bne_iff_ne, ne_eq] at h
  obtain ⟨⟨h1, _⟩, h3⟩ := h
  show (if p = '%' then _ else if p = '\\' then _ else false) = false
  rw [if_neg h1, if_neg h3]

/-- A plain pattern character matches the same character, up to case. -/
theorem likeFrom_plain_cons (eqv : Char → Char → Bool) (p : Char) (ps : List Char)
    (c : Char) (cs : List Char) (h : plainChar p = true) :
    likeFrom eqv false (p :: ps) (c :: cs) = (eqv p c && likeFrom eqv false ps cs) := by
  simp only [plainChar, Bool.and_eq_true, bne_iff_ne, ne_eq] at h
  obtain ⟨⟨h1, h2⟩, h3⟩ := h
  show (if p = '%' then _ else if p = '\\' then _
    else ((p = '_' || eqv p c) && likeFrom eqv false ps cs)) = _
  rw [if_neg h1, if_neg h3]
  simp [h2]

/-- The pattern `%` matches every text. -/
theorem likeFrom_percent_end (eqv : Char → Char → Bool) (t : List Char) :
    likeFrom eqv false ['%'] t = true := by
  rw [likeFrom_percent, List.any_eq_true]
  exact ⟨[], by simp, rfl⟩

/-- A plain name followed by `%` matches the texts that start with the name. -/
theorem likeFrom_plain_then_any (n : List Char) (h : n.all plainChar = true)
    (t : List Char) : likeFrom eqFold false (n ++ ['%']) t = startsWithFold n t := by
  induction n generalizing t with
  | nil => simpa [startsWithFold] using likeFrom_percent_end eqFold t
  | cons c n ih =>
    simp only [List.all_cons, Bool.and_eq_true] at h
    obtain ⟨hc, hn⟩ := h
    cases t with
    | nil => rw [List.cons_append, likeFrom_plain_nil _ _ _ hc]; rfl
    | cons d ds =>
      rw [List.cons_append, likeFrom_plain_cons _ _ _ _ _ hc, ih hn]
      rfl

/-- For a name without pattern characters, `ILIKE` against the name wrapped
in `%` is the case-insensitive substring test. -/
theorem ilike_plain (n s : String) (h : n.data.all plainChar = true) :
    ilike ("%" ++ n ++ "%") s = containsFold n s := by
  unfold ilike containsFold
  have hd : ("%" ++ n ++ "%").data = '%' :: (n.data ++ ['%']) := by
    simp [String.data_append]
  rw [hd, likeFrom_percent]
  congr 1
  funext t
  exact likeFrom_plain_then_any n.data h t

/-- The order of the store on floats is reflexive. -/
theorem Float64.le_self (x : Float64) : Float64.le x x = true := by
  simp [Float64.le]

/-- The conditions of the statement with all three optional clauses. -/
theorem parseListStatement_allFilters :
    parseListStatement allFiltersQuery
      = some [⟨"user_id", "=", 1⟩, ⟨"product_price", ">=", 2⟩, ⟨"product_price", "<=", 3⟩,
          ⟨"product_name", "ILIKE", 4⟩] := by
  decide

/-- The rows the table store returns for the statement with all three
optional clauses. -/
theorem tableQuery_allFilters (sch : Schema) (t : Table) (uid pat : String) (lo hi : Float64)
    (u : Int) (hu : sch.coerce uid = some u) :
    tableQuery sch t allFiltersQuery [.text uid, .float lo, .float hi, .text pat]
      = (.ok ((t.rows.filter (fun r => decide (r.user_id = u) && Float64.le lo r.product_price
            && Float64.le r.product_price hi && ilike pat r.product_name)).map Row.listed),
         t) := by
  have h1 : ¬ allFiltersQuery = insertSQL := by decide
  have h2 : ¬ allFiltersQuery = selectByIDSQL := by decide
  unfold tableQuery
  simp only [h1, h2, if_false, listPredicate, parseListStatement_allFilters]
  simp [bindConds, bindCond, hu, Bool.and_assoc]

/-- C7, as the code has it: when `price_min` and `price_max` are non-empty and
parse as `lo` and `hi`, and `product_name` is a non-empty string `n`, the
statement is the base query followed by the three clauses with `$2`, `$3`,
`$4`, and the arguments are `[user_id, lo, hi, "%" + n + "%"]`.  On the table
store, when `user_id` reads as `u`, the statement returns the rows with
`user_id = u`, `lo <= product_price <= hi` and `product_name ILIKE` the
pattern; a price equal to `lo` or to `hi` passes its bound; and the pattern
is the case-insensitive substring test for `n` whenever `n` has none of the
characters `%`, `_` and backslash. -/
theorem list_query_all_filters (sch : Schema) (pf : String → Float64 × Option String)
    (q : Values) (lo hi : Float64) (n : String)
    (hmin : q.Get "price_min" ≠ "") (hlo : pf (q.Get "price_min") = (lo, none))
    (hmax : q.Get "price_max" ≠ "") (hhi : pf (q.Get "price_max") = (hi, none))
    (hname : q.Get "product_name" = n) (hn : n ≠ "") :
    buildListQuery pf q =
      (listBaseQuery
        ++ " AND product_price >= $2 AND product_price <= $3 AND product_name ILIKE $4",
       [Arg.text (q.Get "user_id"), Arg.float lo, Arg.float hi,
        Arg.text ("%" ++ n ++ "%")])
    ∧ (∀ u, sch.coerce (q.Get "user_id") = some u → ∀ t : Table,
        tableQuery sch t (buildListQuery pf q).1 (buildListQuery pf q).2
          = (.ok ((t.rows.filter (fun r => decide (r.user_id = u)
                && Float64.le lo r.product_price && Float64.le r.product_price hi
                && ilike ("%" ++ n ++ "%") r.product_name)).map Row.listed), t))
    ∧ (∀ r : Row, (r.product_price = lo → Float64.le lo r.product_price = true)
        ∧ (r.product_price = hi → Float64.le r.product_price hi = true))
    ∧ (n.data.all plainChar = true →
        ∀ s, ilike ("%" ++ n ++ "%") s = containsFold n s) := by
  subst hname
  have hb : buildListQuery pf q =
      (listBaseQuery
        ++ " AND product_price >= $2 AND product_price <= $3 AND product_name ILIKE $4",
       [Arg.text (q.Get "user_id"), Arg.float lo, Arg.float hi,
        Arg.text ("%" ++ q.Get "product_name" ++ "%")]) := by
    rw [buildListQuery_eq]
    simp [hmin, hmax, hn, hlo, hhi, String.append_assoc]
  refine ⟨hb, ?_, ?_, ?_⟩
  · intro u hu t
    rw [hb]
    exact tableQuery_allFilters sch t _ _ lo hi u hu
  · intro r
    exact ⟨fun h => by rw [h]; exact Float64.le_self lo,
      fun h => by rw [h]; exact Float64.le_self hi⟩
  · intro hp s
    exact ilike_plain _ s hp

/-- Witness of C7 as amended:
`user_id=42&price_min=10&price_max=50&product_name=shoe` on a table with four
rows.  The rows of user 42 named "Running Shoes" (price 50) and "Snowshoe"
(price 10) are returned, the prices on the bounds included. -/
theorem list_query_all_filters_witness :
    buildListQuery sampleParseFloat
        [("user_id", "42"), ("price_min", "10"), ("price_max", "50"),
         ("product_name", "shoe")] =
      (listBaseQuery
        ++ " AND product_price >= $2 AND product_price <= $3 AND product_name ILIKE $4",
       [Arg.text "42", Arg.float f10, Arg.float f50, Arg.text "%shoe%"])
    ∧ (tableQuery sampleSchema shoeTable allFiltersQuery
          [Arg.text "42", Arg.float f10, Arg.float f50, Arg.text "%shoe%"]).1
        = .ok [[.int 1, .int 42, .text "Running Shoes", .text "light",
                .textArray ["a.png"], .float f50],
               [.int 2, .int 42, .text "Snowshoe", .text "wide", .null, .float f10]]
    ∧ (GetProductsHandler sampleEnv shoeTable
          [("user_id", "42"), ("price_min", "10"), ("price_max", "50"),
           ("product_name", "shoe")]).w.body
        = [.json (.arr [
            [("id", .int 1), ("product_description", .str "light"),
             ("product_images", .strs ["a.png"]), ("product_name", .str "Running Shoes"),
             ("product_price", .num f50), ("user_id", .int 42)],
            [("id", .int 2), ("product_description", .str "wide"),
             ("product_images", .null), ("product_name", .str "Snowshoe"),
             ("product_price", .num f10), ("user_id", .int 42)]])] :=
  have h := list_query_all_filters sampleSchema sampleParseFloat
    [("user_id", "42"), ("price_min", "10"), ("price_max", "50"), ("product_name", "shoe")]
    f10 f50 "shoe" (by decide) (by decide) (by decide) (by decide) (by decide) (by decide)
  ⟨h.1, (congrArg Prod.fst (h.2.1 42 rfl shoeTable)).trans rfl, rfl⟩

/-- Counterexample to C7 as stated: for
`user_id=42&price_min=10&price_max=50&product_name=g_s` the conditions of the
claim hold and the statement and arguments are as it says, with the pattern
`%g_s%`; the statement returns the row named "Gas stove", whose name does not
contain "g_s" in any case: the name is matched as a pattern, not as a
substring. -/
theorem list_query_name_matched_as_pattern :
    Values.Get [("user_id", "42"), ("price_min", "10"), ("price_max", "50"),
        ("product_name", "g_s")] "product_name" = "g_s"
    ∧ sampleParseFloat "10" = (f10, none)
    ∧ sampleParseFloat "50" = (f50, none)
    ∧ buildListQuery sampleParseFloat
        [("user_id", "42"), ("price_min", "10"), ("price_max", "50"),
         ("product_name", "g_s")]
      = (allFiltersQuery, [Arg.text "42", Arg.float f10, Arg.float f50, Arg.text "%g_s%"])
    ∧ (tableQuery sampleSchema gasTable allFiltersQuery
          [Arg.text "42", Arg.float f10, Arg.float f50, Arg.text "%g_s%"]).1
        = .ok [[.int 1, .int 42, .text "Gas stove", .text "hot", .null, .float f10]]
    ∧ ilike "%g_s%" "Gas stove" = true
    ∧ containsFold "g_s" "Gas stove" = false :=
  ⟨by decide, by decide, by decide, by decide, rfl, by decide, by decide⟩

/-- C8: when `price_min` is empty and `price_max` and `product_name` are not,
the statement text has the placeholders `$1`, `$3`, `$4` and no `$2`, while
the argument list has exactly three entries: `$4` has no argument, and the
third argument is the name pattern although `$3` is written in the
`price_max` clause. -/
theorem list_query_misaligned_without_price_min (pf : String → Float64 × Option String)
    (q : Values) (hmin : q.Get "price_min" = "") (hmax : q.Get "price_max" ≠ "")
    (hname : q.Get "product_name" ≠ "") :
    placeholders (buildListQuery pf q).1 = [1, 3, 4]
      ∧ 2 ∉ placeholders (buildListQuery pf q).1
      ∧ (buildListQuery pf q).1
          = listBaseQuery ++ " AND product_price <= $3" ++ " AND product_name ILIKE $4"
      ∧ (buildListQuery pf q).2.length = 3
      ∧ (buildListQuery pf q).2
          = [Arg.text (q.Get "user_id"), Arg.float (pf (q.Get "price_max")).1,
             Arg.text ("%" ++ q.Get "product_name" ++ "%")]
      ∧ placeholders (buildListQuery pf q).1
          ≠ List.range' 1 (buildListQuery pf q).2.length := by
  have hp : placeholders (buildListQuery pf q).1 = [1, 3, 4] := by
    rw [placeholders_buildListQuery]; simp [hmin, hmax, hname]
  have ha : (buildListQuery pf q).2
      = [Arg.text (q.Get "user_id"), Arg.float (pf (q.Get "price_max")).1,
         Arg.text ("%" ++ q.Get "product_name" ++ "%")] := by
    rw [buildListQuery_eq]; simp [hmin, hmax, hname]
  refine ⟨hp, ?_, ?_, ?_, ha, ?_⟩
  · rw [hp]; decide
  · rw [buildListQuery_eq]; simp [hmin, hmax, hname]
  · rw [ha]; rfl
  · rw [hp, ha]; simp [List.range']

/-- Witness of C8: `user_id=42&price_max=50&product_name=shoe`. -/
theorem list_query_misaligned_without_price_min_witness :
    placeholders (buildListQuery sampleParseFloat
        [("user_id", "42"), ("price_max", "50"), ("product_name", "shoe")]).1 = [1, 3, 4]
      ∧ (buildListQuery sampleParseFloat
        [("user_id", "42"), ("price_max", "50"), ("product_name", "shoe")]).2.length = 3 :=
  have h := list_query_misaligned_without_price_min sampleParseFloat
    [("user_id", "42"), ("price_max", "50"), ("product_name", "shoe")]
    (by decide) (by decide) (by decide)
  ⟨h.1, h.2.2.2.1⟩

/-- C10: the placeholders of the statement text are the placeholder numbers of
the appended clauses and the arguments are the values appended with them; the
placeholders are exactly `$1..$k` for `k` the number of arguments, each clause
finding its own value at the position its placeholder names, if and only if
the non-empty optional parameters form a prefix of `price_min`, `price_max`,
`product_name`; the number of arguments is always one plus the number of
non-empty optional parameters. -/
theorem list_query_aligned_iff_initial_segment (pf : String → Float64 × Option String)
    (q : Values) :
    (placeholders (buildListQuery pf q).1 = (clauseBindings pf q).map Prod.fst
      ∧ (buildListQuery pf q).2 = (clauseBindings pf q).map Prod.snd)
    ∧ ((placeholders (buildListQuery pf q).1 = List.range' 1 (buildListQuery pf q).2.length
          ∧ ∀ b ∈ clauseBindings pf q, (buildListQuery pf q).2[b.1 - 1]? = some b.2)
        ↔ optionalsFormInitialSegment q)
    ∧ (buildListQuery pf q).2.length = 1 + optionalCount q := by
  rw [placeholders_buildListQuery]
  rw [buildListQuery_eq]
  unfold clauseBindings optionalsFormInitialSegment optionalCount
  by_cases h1 : q.Get "price_min" = "" <;> by_cases h2 : q.Get "price_max" = "" <;>
    by_cases h3 : q.Get "product_name" = "" <;>
    simp [h1, h2, h3, List.range']

/-! ## CreateProductHandler -/

/-- C1: when the body fails to decode, the handler replies 400 with its fixed
message, sends no statement to the store and leaves the store as it was. -/
theorem create_malformed_body_no_insert {σ : Type} (env : Env σ) (st : σ) (body e : String)
    (h : env.decode body = .error e) :
    (CreateProductHandler env st body).w.status = some 400
      ∧ (CreateProductHandler env st body).w.body = [.text "Invalid request payload\n"]
      ∧ (CreateProductHandler env st body).issued = []
      ∧ (CreateProductHandler env st body).store = st := by
  unfold CreateProductHandler
  simp [h, httpError, ResponseWriter.Write, ResponseWriter.WriteHeader,
    ResponseWriter.setHeader, ResponseWriter.delHeader, ResponseWriter.new]

/-- Witness of C1: the body "not json" on a table holding one row. -/
theorem create_malformed_body_no_insert_witness :
    (CreateProductHandler sampleEnv nanTable "not json").w.status = some 400
      ∧ (CreateProductHandler sampleEnv nanTable "not json").w.body
          = [.text "Invalid request payload\n"]
      ∧ (CreateProductHandler sampleEnv nanTable "not json").issued = []
      ∧ (CreateProductHandler sampleEnv nanTable "not json").store = nanTable :=
  create_malformed_body_no_insert sampleEnv nanTable "not json"
    "invalid character in request body" (by rfl)

/-! ## GetProductByIDHandler -/

/-- The response of `GetProductByIDHandler`, by the outcome of the lookup and
of the encoder. -/
theorem GetProductByIDHandler_w {σ : Type} (env : Env σ) (st : σ) (id : String) :
    (GetProductByIDHandler env st id).w =
      match (lookupProduct env st id).1 with
      | .error .ErrNoRows => httpError ResponseWriter.new "Product not found" 404
      | .error (.other _) => httpError ResponseWriter.new "Failed to retrieve product" 500
      | .ok r =>
        match env.marshal (.map (productResponse r)) with
        | .error _ =>
          httpError (ResponseWriter.new.setHeader "Content-Type" "application/json")
            "Failed to write response" 500
        | .ok doc =>
          (ResponseWriter.new.setHeader "Content-Type" "application/json").Write (.json doc) := by
  unfold GetProductByIDHandler
  rcases hl : lookupProduct env st id with ⟨res, st'⟩
  cases res with
  | error err =>
    cases err <;> simp
  | ok r =>
    simp only [Encode]
    cases hm : env.marshal (.map (productResponse r)) <;> simp

/-- C2, as the code has it: the status is 404 exactly when the lookup reports
`sql.ErrNoRows`; it is 500 exactly when the lookup reports another error or
the lookup succeeds and the response fails to encode; it is 200 with the
encoded fields of the row exactly when the lookup succeeds and the response
encodes. -/
theorem get_by_id_status_by_lookup {σ : Type} (env : Env σ) (st : σ) (id : String) :
    ((GetProductByIDHandler env st id).w.status = some 404
        ↔ (lookupProduct env st id).1 = .error .ErrNoRows)
    ∧ ((GetProductByIDHandler env st id).w.status = some 500
        ↔ ((∃ e, (lookupProduct env st id).1 = .error (.other e))
            ∨ ∃ r e, (lookupProduct env st id).1 = .ok r
                ∧ env.marshal (.map (productResponse r)) = .error e))
    ∧ ((GetProductByIDHandler env st id).w.status = some 200
        ↔ ∃ r doc, (lookupProduct env st id).1 = .ok r
            ∧ env.marshal (.map (productResponse r)) = .ok doc)
    ∧ (∀ r doc, (lookupProduct env st id).1 = .ok r
          → env.marshal (.map (productResponse r)) = .ok doc
          → (GetProductByIDHandler env st id).w.status = some 200
            ∧ (GetProductByIDHandler env st id).w.body = [.json doc]) := by
  rw [GetProductByIDHandler_w]
  cases hres : (lookupProduct env st id).1 with
  | error err =>
    cases err <;>
      simp [httpError, ResponseWriter.Write, ResponseWriter.WriteHeader,
        ResponseWriter.setHeader, ResponseWriter.delHeader, ResponseWriter.new]
  | ok r =>
    cases hm : env.marshal (.map (productResponse r)) <;>
      simp [hm, httpError, ResponseWriter.Write, ResponseWriter.WriteHeader,
        ResponseWriter.setHeader, ResponseWriter.delHeader, ResponseWriter.new] <;>
      (intro r1 doc h1 h2; subst h1; simp_all)

/-- Witness of C2 as amended: a lookup in a table without the identifier. -/
theorem get_by_id_status_by_lookup_witness :
    (GetProductByIDHandler sampleEnv nanTable "7").w.status = some 404 :=
  (get_by_id_status_by_lookup sampleEnv nanTable "7").1.mpr (by rfl)

/-- Counterexample to C2 as stated: the lookup of identifier 1 succeeds on a
table whose row 1 has the price NaN, yet the status is 500 and the body is a
fixed message, not the fields of the row. -/
theorem get_by_id_lookup_ok_but_500 :
    (lookupProduct sampleEnv nanTable "1").1
        = .ok ⟨42, "Running Shoes", "light", .mk ["a.png"], .nil, Float64.nan⟩
      ∧ (GetProductByIDHandler sampleEnv nanTable "1").w.status = some 500
      ∧ (GetProductByIDHandler sampleEnv nanTable "1").w.body
          = [.text "Failed to write response\n"] :=
  ⟨rfl, rfl, rfl⟩

/-! ## GetProductsHandler -/

/-- The response of `GetProductsHandler`, by the outcome of the statement, of
the scan loop and of the encoder. -/
theorem GetProductsHandler_w {σ : Type} (env : Env σ) (st : σ) (q : Values) :
    (GetProductsHandler env st q).w =
      match (env.query st (buildListQuery env.parseFloat q).1
          (buildListQuery env.parseFloat q).2).1 with
      | .error _ => httpError ResponseWriter.new "Failed to retrieve products" 500
      | .ok rows =>
        match scanRows rows .nil with
        | .error _ => httpError ResponseWriter.new "Failed to parse product data" 500
        | .ok products =>
          match env.marshal (.maps products) with
          | .error _ =>
            httpError (ResponseWriter.new.setHeader "Content-Type" "application/json")
              "Failed to write response" 500
          | .ok doc =>
            (ResponseWriter.new.setHeader "Content-Type" "application/json").Write
              (.json doc) := by
  unfold GetProductsHandler
  rcases hq : env.query st (buildListQuery env.parseFloat q).1
      (buildListQuery env.parseFloat q).2 with ⟨res, st'⟩
  cases res with
  | error e => simp [hq]
  | ok rows =>
    simp only [hq, Encode]
    cases hs : scanRows rows .nil with
    | error e => simp
    | ok products =>
      cases hm : env.marshal (.maps products) <;> simp [hm]

/-- With the standard encoder, a list request whose statement returns no row
gets status 200 and the JSON value `null` as its body. -/
theorem list_no_rows_null {σ : Type} (env : Env σ) (st : σ) (q : Values)
    (hm : env.marshal = jsonMarshal)
    (hq : (env.query st (buildListQuery env.parseFloat q).1
        (buildListQuery env.parseFloat q).2).1 = .ok []) :
    (GetProductsHandler env st q).w.status = some 200
      ∧ (GetProductsHandler env st q).w.body = [.json .null] := by
  rw [GetProductsHandler_w, hq, hm]
  simp [scanRows, jsonMarshal, ResponseWriter.Write, ResponseWriter.WriteHeader,
    ResponseWriter.setHeader, ResponseWriter.new]

/-- C4, the run that shows the defect: `GET /products?user_id=42` against a
store without matching rows is answered with status 200 and the body `null`,
which is not the empty array. -/
theorem list_no_rows_body_is_null :
    (noRowsEnv.query () (buildListQuery noRowsEnv.parseFloat [("user_id", "42")]).1
        (buildListQuery noRowsEnv.parseFloat [("user_id", "42")]).2).1 = .ok []
      ∧ (GetProductsHandler noRowsEnv () [("user_id", "42")]).w.status = some 200
      ∧ (GetProductsHandler noRowsEnv () [("user_id", "42")]).w.body = [.json .null]
      ∧ (GetProductsHandler noRowsEnv () [("user_id", "42")]).w.body ≠ [.json (.arr [])] :=
  ⟨rfl, rfl, rfl, by decide⟩

/-! ## A `price_min` that does not parse -/

/-- The statement built without `price_min` is the one built with it, less
the `price_min` clause and its argument. -/
theorem buildListQuery_Del_price_min (pf : String → Float64 × Option String) (q : Values) :
    buildListQuery pf (Values.Del q "price_min") =
      (listBaseQuery
        ++ (if q.Get "price_max" ≠ "" then " AND product_price <= $3" else "")
        ++ (if q.Get "product_name" ≠ "" then " AND product_name ILIKE $4" else ""),
       [Arg.text (q.Get "user_id")]
        ++ (if q.Get "price_max" ≠ "" then [Arg.float (pf (q.Get "price_max")).1] else [])
        ++ (if q.Get "product_name" ≠ "" then [Arg.text ("%" ++ q.Get "product_name" ++ "%")]
            else [])) := by
  rw [buildListQuery_eq]
  simp [Values.Get_Del]

/-- C3, as the code has it: a non-empty `price_min` that does not parse still
gets its clause.  The statement text is the text built without `price_min`
with ` AND product_price >= $2` inserted after the base query, and the
argument list is the one built without `price_min` with the value returned by
`ParseFloat` inserted after `user_id`; the parse error itself is dropped. -/
theorem list_query_unparsed_price_min_still_filters
    (pf : String → Float64 × Option String) (q : Values) (e : String)
    (hmin : q.Get "price_min" ≠ "") (_hparse : (pf (q.Get "price_min")).2 = some e) :
    ∃ rest restArgs,
      buildListQuery pf (Values.Del q "price_min")
          = (listBaseQuery ++ rest, Arg.text (q.Get "user_id") :: restArgs)
      ∧ buildListQuery pf q
          = (listBaseQuery ++ " AND product_price >= $2" ++ rest,
             Arg.text (q.Get "user_id") :: Arg.float (pf (q.Get "price_min")).1 :: restArgs)
      ∧ (buildListQuery pf q).2.length
          = (buildListQuery pf (Values.Del q "price_min")).2.length + 1 := by
  refine ⟨(if q.Get "price_max" ≠ "" then " AND product_price <= $3" else "")
        ++ (if q.Get "product_name" ≠ "" then " AND product_name ILIKE $4" else ""),
      (if q.Get "price_max" ≠ "" then [Arg.float (pf (q.Get "price_max")).1] else [])
        ++ (if q.Get "product_name" ≠ "" then [Arg.text ("%" ++ q.Get "product_name" ++ "%")]
            else []), ?_, ?_, ?_⟩
  · rw [buildListQuery_Del_price_min]
    simp [String.append_assoc]
  · rw [buildListQuery_eq]
    simp [hmin, String.append_assoc]
  · rw [buildListQuery_Del_price_min, buildListQuery_eq]
    simp [hmin]

/-- Witness of C3 as amended: `user_id=42&price_min=abc`. -/
theorem list_query_unparsed_price_min_still_filters_witness :
    ∃ rest restArgs,
      buildListQuery sampleParseFloat (Values.Del [("user_id", "42"), ("price_min", "abc")]
          "price_min")
          = (listBaseQuery ++ rest, Arg.text "42" :: restArgs)
      ∧ buildListQuery sampleParseFloat [("user_id", "42"), ("price_min", "abc")]
          = (listBaseQuery ++ " AND product_price >= $2" ++ rest,
             Arg.text "42" :: Arg.float Float64.zero :: restArgs)
      ∧ (buildListQuery sampleParseFloat [("user_id", "42"), ("price_min", "abc")]).2.length
          = (buildListQuery sampleParseFloat
              (Values.Del [("user_id", "42"), ("price_min", "abc")] "price_min")).2.length
            + 1 :=
  list_query_unparsed_price_min_still_filters sampleParseFloat
    [("user_id", "42"), ("price_min", "abc")] "strconv.ParseFloat: invalid syntax"
    (by decide) (by rfl)

/-- Counterexample to C3 as stated: for `user_id=42&price_min=abc` the value
of `price_min` is non-empty and does not parse, yet the statement text and
the argument list differ from those built for `user_id=42`: the clause
`product_price >= $2` is there, with the argument 0. -/
theorem list_query_unparsed_price_min_differs :
    Values.Get [("user_id", "42"), ("price_min", "abc")] "price_min" = "abc"
      ∧ (sampleParseFloat "abc").2 ≠ none
      ∧ Values.Del [("user_id", "42"), ("price_min", "abc")] "price_min" = [("user_id", "42")]
      ∧ buildListQuery sampleParseFloat [("user_id", "42"), ("price_min", "abc")]
          = (listBaseQuery ++ " AND product_price >= $2",
             [Arg.text "42", Arg.float Float64.zero])
      ∧ buildListQuery sampleParseFloat [("user_id", "42")]
          = (listBaseQuery, [Arg.text "42"])
      ∧ buildListQuery sampleParseFloat [("user_id", "42"), ("price_min", "abc")]
          ≠ buildListQuery sampleParseFloat
              (Values.Del [("user_id", "42"), ("price_min", "abc")] "price_min") := by
  decide

/-! ## Create, then get, on the table store -/

/-- The response of `CreateProductHandler`, by the outcome of the decoder, of
the insert and of the encoder. -/
theorem CreateProductHandler_w {σ : Type} (env : Env σ) (st : σ) (body : String) :
    (CreateProductHandler env st body).w =
      match env.decode body with
      | .error _ => httpError ResponseWriter.new "Invalid request payload" 400
      | .ok product =>
        match (QueryRowScan env.query st insertSQL (insertArgs product) scanProductID).1 with
        | .error _ => httpError ResponseWriter.new "Failed to create product" 500
        | .ok productID =>
          match env.marshal (.map (createdResponse productID)) with
          | .error _ =>
            httpError (ResponseWriter.new.setHeader "Content-Type" "application/json")
              "Failed to write response" 500
          | .ok doc =>
            (ResponseWriter.new.setHeader "Content-Type" "application/json").Write
              (.json doc) := by
  unfold CreateProductHandler
  cases hd : env.decode body with
  | error e => simp
  | ok product =>
    simp only
    rcases hq : QueryRowScan env.query st insertSQL (insertArgs product) scanProductID
      with ⟨res, st'⟩
    cases res with
    | error err => simp
    | ok productID =>
      simp only [Encode]
      cases hm : env.marshal (.map (createdResponse productID)) <;> simp [hm]

/-- Stores that agree up to error text give lookups that agree up to error
text. -/
theorem QueryRowScan_sameOutcome {σ α : Type}
    (q1 q2 : σ → String → List Arg → QueryResult × σ) (st : σ) (sql : String)
    (args : List Arg) (scan : List Value → Except String α)
    (h : sameUpToErrorText (q1 st sql args).1 (q2 st sql args).1) :
    sameOutcome (QueryRowScan q1 st sql args scan).1 (QueryRowScan q2 st sql args scan).1 := by
  unfold QueryRowScan
  rcases h1 : q1 st sql args with ⟨r1, s1⟩
  rcases h2 : q2 st sql args with ⟨r2, s2⟩
  rw [h1, h2] at h
  cases r1 with
  | error e1 =>
    cases r2 with
    | error e2 => simp [sameOutcome]
    | ok rows2 => simp [sameUpToErrorText] at h
  | ok rows1 =>
    cases r2 with
    | error e2 => simp [sameUpToErrorText] at h
    | ok rows2 =>
      simp only [sameUpToErrorText] at h
      subst h
      cases rows1 with
      | nil => simp [sameOutcome]
      | cons row rest =>
        simp only
        cases scan row <;> simp [sameOutcome]

/-- The list statement depends on `ParseFloat` through the returned values
only. -/
theorem buildListQuery_congr (pf1 pf2 : String → Float64 × Option String) (q : Values)
    (h : ∀ s, (pf1 s).1 = (pf2 s).1) : buildListQuery pf1 q = buildListQuery pf2 q := by
  rw [buildListQuery_eq, buildListQuery_eq, h, h]

/-- The reply of `CreateProductHandler` does not depend on error text. -/
theorem CreateProductHandler_w_congr {σ : Type} (env1 env2 : Env σ)
    (h : DifferOnlyInErrorText env1 env2) (st : σ) (body : String) :
    (CreateProductHandler env1 st body).w = (CreateProductHandler env2 st body).w := by
  obtain ⟨hd, _, hq, hm⟩ := h
  rw [CreateProductHandler_w, CreateProductHandler_w]
  have hd1 := hd body
  cases h1 : env1.decode body with
  | error e1 =>
    cases h2 : env2.decode body with
    | error e2 => rfl
    | ok p2 => simp [h1, h2, sameUpToErrorText] at hd1
  | ok p1 =>
    cases h2 : env2.decode body with
    | error e2 => simp [h1, h2, sameUpToErrorText] at hd1
    | ok p2 =>
      simp only [h1, h2, sameUpToErrorText] at hd1
      subst hd1
      simp only
      have ho := QueryRowScan_sameOutcome env1.query env2.query st insertSQL (insertArgs p1)
        scanProductID (hq st insertSQL (insertArgs p1)).1
      cases r1 : (QueryRowScan env1.query st insertSQL (insertArgs p1) scanProductID).1 with
      | error e1 =>
        cases r2 : (QueryRowScan env2.query st insertSQL (insertArgs p1) scanProductID).1 with
        | error e2 => rfl
        | ok i2 => rw [r1, r2] at ho; cases e1 <;> simp [sameOutcome] at ho
      | ok i1 =>
        cases r2 : (QueryRowScan env2.query st insertSQL (insertArgs p1) scanProductID).1 with
        | error e2 => rw [r1, r2] at ho; simp [sameOutcome] at ho
        | ok i2 =>
          rw [r1, r2] at ho
          simp only [sameOutcome] at ho
          subst ho
          simp only
          have hm1 := hm (.map (createdResponse i1))
          cases m1 : env1.marshal (.map (createdResponse i1)) <;>
            cases m2 : env2.marshal (.map (createdResponse i1)) <;>
            simp_all [sameUpToErrorText]

/-- The reply of `GetProductByIDHandler` does not depend on error text. -/
theorem GetProductByIDHandler_w_congr {σ : Type} (env1 env2 : Env σ)
    (h : DifferOnlyInErrorText env1 env2) (st : σ) (id : String) :
    (GetProductByIDHandler env1 st id).w = (GetProductByIDHandler env2 st id).w := by
  obtain ⟨_, _, hq, hm⟩ := h
  rw [GetProductByIDHandler_w, GetProductByIDHandler_w]
  have ho : sameOutcome (lookupProduct env1 st id).1 (lookupProduct env2 st id).1 :=
    QueryRowScan_sameOutcome env1.query env2.query st selectByIDSQL [.text id] scanProduct
      (hq st selectByIDSQL [.text id]).1
  cases r1 : (lookupProduct env1 st id).1 with
  | error e1 =>
    cases r2 : (lookupProduct env2 st id).1 with
    | error e2 =>
      rw [r1, r2] at ho
      cases e1 <;> cases e2 <;> simp [sameOutcome] at ho ⊢
    | ok i2 => rw [r1, r2] at ho; cases e1 <;> simp [sameOutcome] at ho
  | ok i1 =>
    cases r2 : (lookupProduct env2 st id).1 with
    | error e2 => rw [r1, r2] at ho; simp [sameOutcome] at ho
    | ok i2 =>
      rw [r1, r2] at ho
      simp only [sameOutcome] at ho
      subst ho
      simp only
      have hm1 := hm (.map (productResponse i1))
      cases m1 : env1.marshal (.map (productResponse i1)) <;>
        cases m2 : env2.marshal (.map (productResponse i1)) <;>
        simp_all [sameUpToErrorText]

/-- The reply of `GetProductsHandler` does not depend on error text. -/
theorem GetProductsHandler_w_congr {σ : Type} (env1 env2 : Env σ)
    (h : DifferOnlyInErrorText env1 env2) (st : σ) (q : Values) :
    (GetProductsHandler env1 st q).w = (GetProductsHandler env2 st q).w := by
  obtain ⟨_, hp, hq, hm⟩ := h
  rw [GetProductsHandler_w, GetProductsHandler_w]
  rw [buildListQuery_congr env1.parseFloat env2.parseFloat q (fun s => (hp s).1)]
  have ho := (hq st (buildListQuery env2.parseFloat q).1 (buildListQuery env2.parseFloat q).2).1
  cases r1 : (env1.query st (buildListQuery env2.parseFloat q).1
      (buildListQuery env2.parseFloat q).2).1 with
  | error e1 =>
    cases r2 : (env2.query st (buildListQuery env2.parseFloat q).1
        (buildListQuery env2.parseFloat q).2).1 with
    | error e2 => rfl
    | ok rows2 => rw [r1, r2] at ho; simp [sameUpToErrorText] at ho
  | ok rows1 =>
    cases r2 : (env2.query st (buildListQuery env2.parseFloat q).1
        (buildListQuery env2.parseFloat q).2).1 with
    | error e2 => rw [r1, r2] at ho; simp [sameUpToErrorText] at ho
    | ok rows2 =>
      rw [r1, r2] at ho
      simp only [sameUpToErrorText] at ho
      subst ho
      simp only
      cases hs : scanRows rows1 .nil with
      | error e => rfl
      | ok products =>
        simp only
        have hm1 := hm (.maps products)
        cases m1 : env1.marshal (.maps products) <;>
          cases m2 : env2.marshal (.maps products) <;>
          simp_all [sameUpToErrorText]

/-- Every reply of `CreateProductHandler` is the JSON document or one of its
fixed messages. -/
theorem CreateProductHandler_reply {σ : Type} (env : Env σ) (st : σ) (body : String) :
    JsonOrFixedMessage createMessages (CreateProductHandler env st body).w := by
  rw [CreateProductHandler_w]
  cases env.decode body with
  | error e =>
    right
    simp [createMessages, httpError, ResponseWriter.Write, ResponseWriter.WriteHeader,
      ResponseWriter.setHeader, ResponseWriter.delHeader, ResponseWriter.new]
  | ok p =>
    simp only
    cases (QueryRowScan env.query st insertSQL (insertArgs p) scanProductID).1 with
    | error e =>
      right
      simp [createMessages, httpError, ResponseWriter.Write, ResponseWriter.WriteHeader,
        ResponseWriter.setHeader, ResponseWriter.delHeader, ResponseWriter.new]
    | ok i =>
      simp only
      cases env.marshal (.map (createdResponse i)) with
      | error e =>
        right
        simp [createMessages, httpError, ResponseWriter.Write, ResponseWriter.WriteHeader,
          ResponseWriter.setHeader, ResponseWriter.delHeader, ResponseWriter.new]
      | ok doc =>
        left
        simp [ResponseWriter.Write, ResponseWriter.WriteHeader, ResponseWriter.setHeader,
          ResponseWriter.new]

/-- Every reply of `GetProductByIDHandler` is the JSON document or one of its
fixed messages. -/
theorem GetProductByIDHandler_reply {σ : Type} (env : Env σ) (st : σ) (id : String) :
    JsonOrFixedMessage getByIDMessages (GetProductByIDHandler env st id).w := by
  rw [GetProductByIDHandler_w]
  cases (lookupProduct env st id).1 with
  | error e =>
    right
    cases e <;>
      simp [getByIDMessages, httpError, ResponseWriter.Write, ResponseWriter.WriteHeader,
        ResponseWriter.setHeader, ResponseWriter.delHeader, ResponseWriter.new]
  | ok r =>
    simp only
    cases env.marshal (.map (productResponse r)) with
    | error e =>
      right
      simp [getByIDMessages, httpError, ResponseWriter.Write, ResponseWriter.WriteHeader,
        ResponseWriter.setHeader, ResponseWriter.delHeader, ResponseWriter.new]
    | ok doc =>
      left
      simp [ResponseWriter.Write, ResponseWriter.WriteHeader, ResponseWriter.setHeader,
        ResponseWriter.new]

/-- Every reply of `GetProductsHandler` is the JSON document or one of its
fixed messages. -/
theorem GetProductsHandler_reply {σ : Type} (env : Env σ) (st : σ) (q : Values) :
    JsonOrFixedMessage listMessages (GetProductsHandler env st q).w := by
  rw [GetProductsHandler_w]
  cases (env.query st (buildListQuery env.parseFloat q).1
      (buildListQuery env.parseFloat q).2).1 with
  | error e =>
    right
    simp [listMessages, httpError, ResponseWriter.Write, ResponseWriter.WriteHeader,
      ResponseWriter.setHeader, ResponseWriter.delHeader, ResponseWriter.new]
  | ok rows =>
    simp only
    cases scanRows rows .nil with
    | error e =>
      right
      simp [listMessages, httpError, ResponseWriter.Write, ResponseWriter.WriteHeader,
        ResponseWriter.setHeader, ResponseWriter.delHeader, ResponseWriter.new]
    | ok products =>
      simp only
      cases env.marshal (.maps products) with
      | error e =>
        right
        simp [listMessages, httpError, ResponseWriter.Write, ResponseWriter.WriteHeader,
          ResponseWriter.setHeader, ResponseWriter.delHeader, ResponseWriter.new]
      | ok doc =>
        left
        simp [ResponseWriter.Write, ResponseWriter.WriteHeader, ResponseWriter.setHeader,
          ResponseWriter.new]

/-- C9: for each of the three handlers, two runs on the same request and the
same store whose libraries differ only in the text of the errors they return
send the same status, header and body; and every reply is either the JSON
document under status 200 or one of the fixed messages of the handler. -/
theorem error_text_never_reaches_client {σ : Type} (env1 env2 : Env σ)
    (h : DifferOnlyInErrorText env1 env2) (st : σ) (body id : String) (q : Values) :
    ((CreateProductHandler env1 st body).w = (CreateProductHandler env2 st body).w
      ∧ (GetProductByIDHandler env1 st id).w = (GetProductByIDHandler env2 st id).w
      ∧ (GetProductsHandler env1 st q).w = (GetProductsHandler env2 st q).w)
    ∧ (JsonOrFixedMessage createMessages (CreateProductHandler env1 st body).w
      ∧ JsonOrFixedMessage getByIDMessages (GetProductByIDHandler env1 st id).w
      ∧ JsonOrFixedMessage listMessages (GetProductsHandler env1 st q).w) :=
  ⟨⟨CreateProductHandler_w_congr env1 env2 h st body,
     GetProductByIDHandler_w_congr env1 env2 h st id,
     GetProductsHandler_w_congr env1 env2 h st q⟩,
   ⟨CreateProductHandler_reply env1 st body, GetProductByIDHandler_reply env1 st id,
     GetProductsHandler_reply env1 st q⟩⟩

/-- Agreement up to error text holds between a result and itself. -/
theorem sameUpToErrorText_refl {α : Type} (r : Except String α) : sameUpToErrorText r r := by
  cases r <;> simp [sameUpToErrorText]

/-- Witness of C9: two stores that refuse the list statement with different
texts; the client gets the same reply, the fixed message of the handler. -/
theorem error_text_never_reaches_client_witness :
    (GetProductsHandler (failingEnv "pq: connection refused") () [("user_id", "42")]).w
        = (GetProductsHandler (failingEnv "pq: canceling statement due to timeout") ()
            [("user_id", "42")]).w
      ∧ (GetProductsHandler (failingEnv "pq: connection refused") () [("user_id", "42")]).w.body
        = [.text "Failed to retrieve products\n"] :=
  have h := error_text_never_reaches_client (failingEnv "pq: connection refused")
    (failingEnv "pq: canceling statement due to timeout")
    ⟨fun _ => sameUpToErrorText_refl _, fun _ => ⟨rfl, rfl⟩, fun _ _ _ => ⟨trivial, rfl⟩,
      fun _ => sameUpToErrorText_refl _⟩
    () "not json" "1" [("user_id", "42")]
  ⟨h.1.2.2, rfl⟩

end ProductService
